import Mathlib

/-!
Shallow embedding of the SeqNado normalization-factor subsystem:
`seqnado/workflow/helpers/normalization.py` and
`seqnado/workflow/scripts/calculate_csaw_scaling_factors.py`.

Conventions of the embedding:
* Python floats are modelled as exact rationals (`ℚ`); read counts as `ℕ`.
* A pandas float division that produces a non-finite value is modelled by
  `PFloat` (`pinf` for `x / 0` with `x > 0`, `nan` for `0 / 0`); a Python
  `ZeroDivisionError` or `IndexError` is modelled by `Option.none`.
* File reads are modelled by passing the parsed table as a parameter; the
  `SampleGroupings` collaborator (external to the package, per the code's
  imports) is modelled by passing the resolved member list `samples`.
-/

/-- One row of a `{sample, scale_factor}` TSV table. -/
structure FactorRow where
  sample : String
  scale_factor : ℚ
deriving DecidableEq, Repr

/-- One row of the `with_input` normalisation table
`{sample, spikein_reads_ip, spikein_reads_control, reference_reads_control}`. -/
structure NormRow where
  sample : String
  spikein_reads_control : ℕ
  spikein_reads_ip : ℕ
  reference_reads_control : ℕ
deriving DecidableEq, Repr

/-- The pandas idiom `df.loc[df["sample"] == s, "scale_factor"].values[0]`:
the first row whose `sample` column equals `s`, `none` when there is no such
row (in which case `.values[0]` raises `IndexError`). -/
def rowLookup (table : List FactorRow) (s : String) : Option ℚ :=
  ((table.filter fun r => decide (r.sample = s)).head?).map FactorRow.scale_factor

/-- `get_scaling_factor` (normalization.py, lines 34-48): read the scaling
factor for one sample from a TSV table; `none` models the `IndexError` raised
by `.values[0]` when the sample has no row. -/
def get_scaling_factor (table : List FactorRow) (sample : String) : Option ℚ :=
  rowLookup table sample

/-- `dict.get(sample, 1.0)` on the parsed normalisation-factors JSON object. -/
def jsonGet (norm_factors : List (String × ℚ)) (s : String) : ℚ :=
  match norm_factors.find? fun p => decide (p.1 = s) with
  | some p => p.2
  | none => 1

/-- `get_norm_factor_spikein` (normalization.py, lines 7-31): look the sample
up in the JSON normalisation-factor mapping, defaulting to `1.0`, and negate
when `negative` is set. -/
def get_norm_factor_spikein (norm_factors : List (String × ℚ)) (sample : String)
    (negative : Bool) : ℚ :=
  let scale_factor := jsonGet norm_factors sample
  if negative then -scale_factor else scale_factor

/-- The list comprehension of `get_scaling_factor_for_merged_group`
(normalization.py, lines 78-82): for each group sample that has a row in the
TSV, its first row's factor; samples without a row are skipped. -/
def lookupFactors (table : List FactorRow) (samples : List String) : List ℚ :=
  samples.filterMap (rowLookup table)

/-- Python float division `a / b`; `none` models the `ZeroDivisionError`
raised when `b == 0`. -/
def qdiv? (a b : ℚ) : Option ℚ :=
  if b = 0 then none else some (a / b)

/-- `get_scaling_factor_for_merged_group` (normalization.py, lines 51-84):
harmonic-style combination `1.0 / sum(1.0 / f for f in factors)` of the group
samples' factors found in the TSV, and `1.0` when no factor was found.
`none` models the `ZeroDivisionError` Python raises when a factor, or the sum
of inverses, is zero. -/
def get_scaling_factor_for_merged_group (table : List FactorRow)
    (samples : List String) : Option ℚ :=
  let factors := lookupFactors table samples
  if factors.isEmpty then some 1
  else if factors.any fun f => decide (f = 0) then none
  else qdiv? 1 ((factors.map fun f => 1 / f).sum)

/-- `get_norm_factor_spikein_for_merged_group` (normalization.py, lines
87-163).  The parsed inputs are passed in: `norm_factors` is the method's
JSON mapping, `spikein_stats s` is the `spikein_reads` value of
`{s}_stats.tsv`, `norm_table` is the `with_input` TSV, and `samples` is the
group's resolved member list. -/
def get_norm_factor_spikein_for_merged_group (method : String)
    (norm_factors : List (String × ℚ)) (spikein_stats : String → ℕ)
    (norm_table : List NormRow) (samples : List String) (negative : Bool) : ℚ :=
  let factor :=
    if method = "orlando" then
      let total_spikein := (samples.map spikein_stats).sum
      if 0 < total_spikein then 1000000 / (total_spikein : ℚ) else 1
    else if method = "with_input" then
      let group_rows := norm_table.filter fun r => samples.any fun s => decide (s = r.sample)
      let total_s_ctrl := (group_rows.map NormRow.spikein_reads_control).sum
      let total_s_ip := (group_rows.map NormRow.spikein_reads_ip).sum
      let total_r_ctrl := (group_rows.map NormRow.reference_reads_control).sum
      if 0 < total_s_ip ∧ 0 < total_r_ctrl then
        ((total_s_ctrl : ℚ) * 10000000) / ((total_s_ip : ℚ) * (total_r_ctrl : ℚ))
      else 1
    else
      let factors := samples.map fun s => jsonGet norm_factors s
      if factors.isEmpty then 1 else factors.sum / (factors.length : ℚ)
  if negative then -factor else factor

/-- A row of the design table after uid reconstruction: the sample uid and its
(possibly absent) `scaling_group` and `consensus_group` values.  A `none`
entry behaves exactly like an absent column or a non-matching value, since
the script only ever tests equality with the requested group name. -/
structure DesignRow where
  uid : String
  scaling_group : Option String
  consensus_group : Option String
deriving DecidableEq, Repr

/-- Group resolution of `calculate_csaw_scaling_factors.py` (lines 56-76):
uids whose `scaling_group` equals the group, else uids whose
`consensus_group` equals the group, else all uids. -/
def resolve_group_samples (design : List DesignRow) (group : String) : List String :=
  let scal := (design.filter fun r => decide (r.scaling_group = some group)).map DesignRow.uid
  if scal.isEmpty then
    let cons := (design.filter fun r => decide (r.consensus_group = some group)).map DesignRow.uid
    if cons.isEmpty then design.map DesignRow.uid else cons
  else scal

/-- Result of a pandas float division in the scale-factor computation:
finite, positive infinity (`x / 0` with `x > 0`), or `NaN` (`0 / 0`). -/
inductive PFloat where
  | finite (q : ℚ)
  | pinf
  | nan
deriving DecidableEq, Repr

/-- Pandas float division `a / b` for the nonnegative operands of the CSAW
script: `inf` when `b = 0 < a`, `NaN` when `a = b = 0` (no exception is
raised, unlike Python scalar division). -/
def pandasDiv (a b : ℚ) : PFloat :=
  if b = 0 then (if a = 0 then PFloat.nan else PFloat.pinf) else PFloat.finite (a / b)

/-- The IEEE comparison `v < 1.0` (false for `inf` and `NaN`). -/
def ltOneP : PFloat → Bool
  | PFloat.finite q => decide (q < 1)
  | PFloat.pinf => false
  | PFloat.nan => false

/-- The IEEE comparison `v > 1.0` (true for `inf`, false for `NaN`). -/
def oneLtP : PFloat → Bool
  | PFloat.finite q => decide (1 < q)
  | PFloat.pinf => true
  | PFloat.nan => false

/-- Library size of sample `s`: the sum of its bin-count column, looked up by
name among the per-sample columns (`lib_sizes[s]`); the script only evaluates
this for samples present among the columns. -/
def libSize (counts : List (String × List ℕ)) (s : String) : ℕ :=
  match counts.find? fun c => decide (c.1 = s) with
  | some c => c.2.sum
  | none => 0

/-- `lib_sizes_group.mean()`: mean library size over the listed samples. -/
def groupMean (counts : List (String × List ℕ)) (samples : List String) : ℚ :=
  (((samples.map (libSize counts)).sum : ℕ) : ℚ) / (samples.length : ℚ)

/-- `calculate_csaw_scaling_factors.py` (lines 56-105), from the point where
the per-sample count columns (already renamed to sample stems) and the design
rows (already carrying uids) are in hand: resolve the group, keep only the
samples present among the count columns, fail when none is left, and emit one
`(sample, mean_lib_size / lib_size)` row per remaining sample.
`Except.error` models the raised `ValueError`. -/
def calculate_csaw_scaling_factors (counts : List (String × List ℕ))
    (design : List DesignRow) (group : String) :
    Except String (List (String × PFloat)) :=
  let group_samples := resolve_group_samples design group
  let available_samples := group_samples.filter fun s => counts.any fun c => decide (c.1 = s)
  if available_samples.isEmpty then
    Except.error ("No samples from group " ++ group ++ " found in featureCounts output.")
  else
    let mean_lib_size := groupMean counts available_samples
    Except.ok (available_samples.map fun s => (s, pandasDiv mean_lib_size (libSize counts s)))

/-- Build a `{sample, scale_factor}` table pairing the i-th name with the
i-th factor. -/
def mkTable (names : List String) (fs : List ℚ) : List FactorRow :=
  (names.zip fs).map fun p => ⟨p.1, p.2⟩

theorem rowLookup_cons (n : String) (f : ℚ) (t : List FactorRow) (s : String) :
    rowLookup (⟨n, f⟩ :: t) s = if n = s then some f else rowLookup t s := by
  by_cases h : n = s <;> simp [rowLookup, List.filter_cons, h]

theorem lookupFactors_skip (n : String) (f : ℚ) (t : List FactorRow)
    (samples : List String) (h : n ∉ samples) :
    lookupFactors (⟨n, f⟩ :: t) samples = lookupFactors t samples := by
  induction samples with
  | nil => rfl
  | cons s ss ih =>
    have hns : n ≠ s := fun he => h (he ▸ List.mem_cons_self _ _)
    have hss : n ∉ ss := fun hm => h (List.mem_cons_of_mem _ hm)
    simp only [lookupFactors, List.filterMap_cons] at *
    rw [rowLookup_cons, if_neg hns, ih hss]

theorem lookupFactors_mkTable (names : List String) (fs : List ℚ)
    (hnd : names.Nodup) (hlen : names.length = fs.length) :
    lookupFactors (mkTable names fs) names = fs := by
  induction names generalizing fs with
  | nil =>
    cases fs with
    | nil => rfl
    | cons f fs => simp at hlen
  | cons n ns ih =>
    cases fs with
    | nil => simp at hlen
    | cons f fs =>
      rw [List.nodup_cons] at hnd
      have hmk : mkTable (n :: ns) (f :: fs) = ⟨n, f⟩ :: mkTable ns fs := rfl
      rw [hmk]
      simp only [lookupFactors, List.filterMap_cons, rowLookup_cons, if_pos rfl]
      have hskip := lookupFactors_skip n f (mkTable ns fs) ns hnd.1
      simp only [lookupFactors] at hskip
      rw [hskip]
      have := ih fs hnd.2 (by simpa using hlen)
      simp only [lookupFactors] at this
      rw [this]
      simp

/-- Claim C1: when the per-sample factors are s_i = mean_L / L_i with every
library size L_i strictly positive, the merged-group factor
`1 / sum(1 / s_i)` computed by `get_scaling_factor_for_merged_group` equals
mean_L / sum(L_i) (exactly, hence within any floating tolerance). -/
theorem merged_csaw_factor_eq_pooled (names : List String) (L : List ℚ)
    (hnd : names.Nodup) (hlen : names.length = L.length) (hne : L ≠ [])
    (hpos : ∀ l ∈ L, 0 < l) :
    get_scaling_factor_for_merged_group
        (mkTable names (L.map fun l => L.sum / (L.length : ℚ) / l)) names
      = some (L.sum / (L.length : ℚ) / L.sum) := by
  have hsum : 0 < L.sum := List.sum_pos L hpos hne
  have hlen0 : 0 < (L.length : ℚ) := by
    have : L.length ≠ 0 := fun h => hne (List.length_eq_zero.mp h)
    exact_mod_cast Nat.pos_of_ne_zero this
  set meanL : ℚ := L.sum / (L.length : ℚ) with hmeanL
  have hmean : 0 < meanL := div_pos hsum hlen0
  have hfac : lookupFactors (mkTable names (L.map fun l => meanL / l)) names
      = L.map fun l => meanL / l :=
    lookupFactors_mkTable _ _ hnd (by simpa using hlen)
  unfold get_scaling_factor_for_merged_group
  rw [hfac]
  have hnil : (L.map fun l => meanL / l) ≠ [] := by
    simpa using hne
  rw [if_neg (by simpa [List.isEmpty_iff] using hnil)]
  have hnz : ∀ x ∈ L.map fun l => meanL / l, ¬(x = 0) := by
    intro x hx
    obtain ⟨l, hl, rfl⟩ := List.mem_map.mp hx
    exact ne_of_gt (div_pos hmean (hpos l hl))
  rw [if_neg (by simpa [List.any_eq_true] using fun x hx => hnz x hx)]
  have hmaps : ((L.map fun l => meanL / l).map fun f => 1 / f) = L.map fun l => l * meanL⁻¹ := by
    rw [List.map_map]
    exact List.map_congr_left fun l _ => by
      simp [Function.comp, one_div_div, div_eq_mul_inv]
  rw [hmaps]
  have hsum2 : (L.map fun l => l * meanL⁻¹).sum = L.sum * meanL⁻¹ := by
    have := List.sum_map_mul_right L id meanL⁻¹
    simpa using this
  rw [hsum2]
  have hS : L.sum * meanL⁻¹ ≠ 0 :=
    ne_of_gt (mul_pos hsum (inv_pos.mpr hmean))
  rw [qdiv?, if_neg hS]
  congr 1
  rw [one_div, mul_inv, inv_inv, inv_mul_eq_div]

/-- Witness for C1: library sizes [10, 20, 30] give per-sample factors
[2, 1, 2/3] and merged factor 1/3 = mean(L) / sum(L). -/
theorem merged_csaw_factor_eq_pooled_witness :
    get_scaling_factor_for_merged_group
        (mkTable ["a", "b", "c"] (([10, 20, 30] : List ℚ).map fun l =>
          ([10, 20, 30] : List ℚ).sum / ((([10, 20, 30] : List ℚ).length : ℕ) : ℚ) / l))
        ["a", "b", "c"]
      = some (1 / 3) := by
  have h := merged_csaw_factor_eq_pooled ["a", "b", "c"] [10, 20, 30]
    (by decide) (by decide) (by simp) (by norm_num)
  rw [h]
  norm_num

/-- Claim C10: samples of the group without a row in the TSV are silently
dropped from the harmonic sum (they contribute no default 1.0), an empty
factor list yields 1.0 rather than an error, and otherwise the result is
`1 / sum(1 / s_i)` over exactly the factors found. -/
theorem merged_csaw_skips_missing_samples (table : List FactorRow) (samples : List String) :
    lookupFactors table samples
        = lookupFactors table (samples.filter fun s => (rowLookup table s).isSome)
    ∧ (lookupFactors table samples = [] →
        get_scaling_factor_for_merged_group table samples = some 1)
    ∧ ((∀ f ∈ lookupFactors table samples, 0 < f) → lookupFactors table samples ≠ [] →
        get_scaling_factor_for_merged_group table samples
          = some (1 / ((lookupFactors table samples).map fun f => 1 / f).sum)) := by
  refine ⟨?_, ?_, ?_⟩
  · induction samples with
    | nil => rfl
    | cons s ss ih =>
      simp only [lookupFactors, List.filterMap_cons, List.filter_cons] at *
      cases h : rowLookup table s with
      | none => simp [h, ih]
      | some f => simp [h, List.filterMap_cons, ih]
  · intro h
    unfold get_scaling_factor_for_merged_group
    rw [h]
    rfl
  · intro hpos hne
    unfold get_scaling_factor_for_merged_group
    rw [if_neg (by simpa [List.isEmpty_iff] using hne)]
    rw [if_neg (by
      simp only [List.any_eq_true, decide_eq_true_eq, not_exists]
      rintro f ⟨hf, rfl⟩
      exact absurd (hpos 0 hf) (lt_irrefl 0))]
    have hS : 0 < ((lookupFactors table samples).map fun f => 1 / f).sum := by
      refine List.sum_pos _ ?_ (by simpa using hne)
      intro x hx
      obtain ⟨f, hf, rfl⟩ := List.mem_map.mp hx
      exact one_div_pos.mpr (hpos f hf)
    rw [qdiv?, if_neg (ne_of_gt hS)]

/-- Witness for C10: table `[(a, 2)]` and group samples `[a, b]`: the absent
sample `b` is skipped and the merged factor is `1 / (1/2) = 2`. -/
theorem merged_csaw_skips_missing_samples_witness :
    get_scaling_factor_for_merged_group [⟨"a", 2⟩] ["a", "b"] = some 2 := by
  have h := (merged_csaw_skips_missing_samples [⟨"a", 2⟩] ["a", "b"]).2.2
  have hfac : lookupFactors [⟨"a", 2⟩] ["a", "b"] = [2] := by
    simp [lookupFactors, List.filterMap_cons, rowLookup]
  rw [hfac] at h
  rw [h (by norm_num) (by simp)]
  norm_num

/-- Claim C6 counterexample: a group resolving to zero samples does not raise;
both merged-group functions return the plain factor 1.0, and that value is
indistinguishable from a successfully computed factor of 1.0 (e.g. a
one-sample group whose stored factor is 1.0). -/
theorem merged_group_empty_counterexample :
    get_scaling_factor_for_merged_group [⟨"a", 1⟩] [] = some 1
    ∧ get_scaling_factor_for_merged_group [⟨"a", 1⟩] ["a"] = some 1
    ∧ get_norm_factor_spikein_for_merged_group "orlando" [] (fun _ => 0) [] [] false = 1 := by
  refine ⟨rfl, ?_, rfl⟩
  simp [get_scaling_factor_for_merged_group, lookupFactors, List.filterMap_cons,
    rowLookup, qdiv?]

/-- Claim C6 amended: when the requested group resolves to zero samples, both
merged-group aggregation functions return the default factor 1.0 (negated
under the `negative` flag) with no error raised. -/
theorem merged_group_empty_defaults (table : List FactorRow)
    (method : String) (norm_factors : List (String × ℚ)) (spikein_stats : String → ℕ)
    (norm_table : List NormRow) (negative : Bool) :
    get_scaling_factor_for_merged_group table [] = some 1
    ∧ get_norm_factor_spikein_for_merged_group method norm_factors spikein_stats norm_table []
        negative = (if negative then -1 else 1) := by
  constructor
  · rfl
  · unfold get_norm_factor_spikein_for_merged_group
    by_cases h1 : method = "orlando"
    · simp [h1]
    · by_cases h2 : method = "with_input"
      · simp [h1, h2, List.filter]
      · simp [h1, h2]

/-- Claim C9 counterexample: a sample absent from the TSV scaling-factor
table does not default to 1.0 — `get_scaling_factor` hits `IndexError`
(modelled by `none`) instead of returning a factor. -/
theorem tsv_lookup_missing_counterexample :
    get_scaling_factor [⟨"a", 2⟩] "b" = none
    ∧ get_scaling_factor [⟨"a", 2⟩] "b" ≠ some 1 := by
  constructor <;> simp [get_scaling_factor, rowLookup]

/-- Claim C9 amended: a sample absent from the JSON normalization-factor
mapping defaults to factor 1.0 in `get_norm_factor_spikein`, but a sample
absent from a TSV table makes `get_scaling_factor` raise (IndexError,
modelled by `none`) rather than default. -/
theorem missing_sample_lookup_behaviour (norm_factors : List (String × ℚ)) (sample : String)
    (negative : Bool) (table : List FactorRow)
    (hjson : norm_factors.find? (fun p => decide (p.1 = sample)) = none)
    (htsv : table.filter (fun r => decide (r.sample = sample)) = []) :
    get_norm_factor_spikein norm_factors sample negative = (if negative then -1 else 1)
    ∧ get_scaling_factor table sample = none := by
  constructor
  · unfold get_norm_factor_spikein jsonGet
    rw [hjson]
  · unfold get_scaling_factor rowLookup
    rw [htsv]
    rfl

/-- Witness for C9 amended: sample `b` is absent from both tables; the JSON
path gives 1.0 and the TSV path gives `none`. -/
theorem missing_sample_lookup_behaviour_witness :
    get_norm_factor_spikein [("a", 5)] "b" false = 1
    ∧ get_scaling_factor [⟨"a", 2⟩] "b" = none := by
  have h := missing_sample_lookup_behaviour [("a", 5)] "b" false [⟨"a", 2⟩] (by rfl) (by rfl)
  simpa using h

/-- Claim C7: group resolution checks `scaling_group` first; `consensus_group`
is consulted only when no `scaling_group` row matches, and all samples are
used only when neither column matches — so a name in both columns resolves
from `scaling_group`. -/
theorem resolve_group_priority (design : List DesignRow) (group : String) :
    ((design.filter fun r => decide (r.scaling_group = some group)) ≠ [] →
      resolve_group_samples design group
        = (design.filter fun r => decide (r.scaling_group = some group)).map DesignRow.uid)
    ∧ ((design.filter fun r => decide (r.scaling_group = some group)) = [] →
       (design.filter fun r => decide (r.consensus_group = some group)) ≠ [] →
      resolve_group_samples design group
        = (design.filter fun r => decide (r.consensus_group = some group)).map DesignRow.uid)
    ∧ ((design.filter fun r => decide (r.scaling_group = some group)) = [] →
       (design.filter fun r => decide (r.consensus_group = some group)) = [] →
      resolve_group_samples design group = design.map DesignRow.uid) := by
  unfold resolve_group_samples
  refine ⟨fun h1 => ?_, fun h1 h2 => ?_, fun h1 h2 => ?_⟩
  · rw [if_neg (by simpa [List.isEmpty_iff] using h1)]
  · rw [if_pos (by simpa [List.isEmpty_iff] using h1),
      if_neg (by simpa [List.isEmpty_iff] using h2)]
  · rw [if_pos (by simpa [List.isEmpty_iff] using h1),
      if_pos (by simpa [List.isEmpty_iff] using h2)]

/-- Witness for C7: the name `g` appears in both columns; resolution takes
the `scaling_group` rows (here `[u1]`), not the `consensus_group` rows. -/
theorem resolve_group_priority_witness :
    resolve_group_samples [⟨"u1", some "g", some "g"⟩, ⟨"u2", none, some "g"⟩] "g" = ["u1"] := by
  rw [(resolve_group_priority [⟨"u1", some "g", some "g"⟩, ⟨"u2", none, some "g"⟩] "g").1
    (by decide)]
  decide

theorem resolve_group_samples_ne_nil (design : List DesignRow) (group : String)
    (h : design ≠ []) : resolve_group_samples design group ≠ [] := by
  simp only [resolve_group_samples]
  split_ifs with h1 h2
  · simpa using h
  · simpa [List.isEmpty_iff] using h2
  · simpa [List.isEmpty_iff] using h1

theorem csaw_ok_of_all_available (counts : List (String × List ℕ))
    (design : List DesignRow) (group : String)
    (hne : resolve_group_samples design group ≠ [])
    (hall : ∀ s ∈ resolve_group_samples design group,
      (counts.any fun c => decide (c.1 = s)) = true) :
    calculate_csaw_scaling_factors counts design group
      = Except.ok ((resolve_group_samples design group).map fun s =>
          (s, pandasDiv (groupMean counts (resolve_group_samples design group))
            ((libSize counts s : ℕ) : ℚ))) := by
  simp only [calculate_csaw_scaling_factors]
  rw [List.filter_eq_self.mpr hall]
  rw [if_neg (by simpa [List.isEmpty_iff] using hne)]

/-- Claim C2: when every member of the resolved group appears among the count
columns, the script emits exactly one row per resolved member, each factor
being the group's mean library size divided by the sample's own library size;
larger-than-average libraries get a factor < 1 and smaller-than-average
libraries a factor > 1. -/
theorem csaw_scale_factor_formula (counts : List (String × List ℕ))
    (design : List DesignRow) (group : String)
    (hd : design ≠ [])
    (hall : ∀ s ∈ resolve_group_samples design group,
      (counts.any fun c => decide (c.1 = s)) = true) :
    calculate_csaw_scaling_factors counts design group
      = Except.ok ((resolve_group_samples design group).map fun s =>
          (s, pandasDiv (groupMean counts (resolve_group_samples design group))
            ((libSize counts s : ℕ) : ℚ)))
    ∧ ∀ s ∈ resolve_group_samples design group,
        (groupMean counts (resolve_group_samples design group) < (libSize counts s : ℚ) →
          ltOneP (pandasDiv (groupMean counts (resolve_group_samples design group))
            ((libSize counts s : ℕ) : ℚ)) = true)
        ∧ ((libSize counts s : ℚ) < groupMean counts (resolve_group_samples design group) →
          oneLtP (pandasDiv (groupMean counts (resolve_group_samples design group))
            ((libSize counts s : ℕ) : ℚ)) = true) := by
  refine ⟨csaw_ok_of_all_available counts design group
    (resolve_group_samples_ne_nil _ _ hd) hall, ?_⟩
  intro s _
  have hmean0 : 0 ≤ groupMean counts (resolve_group_samples design group) := by
    unfold groupMean
    positivity
  constructor
  · intro hlt
    have hlib : (0 : ℚ) < (libSize counts s : ℚ) := lt_of_le_of_lt hmean0 hlt
    rw [pandasDiv, if_neg (ne_of_gt hlib)]
    simpa [ltOneP] using (div_lt_one hlib).mpr hlt
  · intro hlt
    by_cases hzero : (libSize counts s : ℚ) = 0
    · have hmean : groupMean counts (resolve_group_samples design group) ≠ 0 := by
        rw [hzero] at hlt
        exact ne_of_gt hlt
      rw [pandasDiv, if_pos hzero, if_neg hmean]
      rfl
    · have hlib : (0 : ℚ) < (libSize counts s : ℚ) :=
        lt_of_le_of_ne (by positivity) (Ne.symm hzero)
      rw [pandasDiv, if_neg hzero]
      simpa [oneLtP] using (one_lt_div hlib).mpr hlt

/-- Witness for C2: libraries a = 10 and b = 30 in group g, mean 20; factors
2 (> 1 for the smaller library) and 2/3 (< 1 for the larger one). -/
theorem csaw_scale_factor_formula_witness :
    calculate_csaw_scaling_factors [("a", [10]), ("b", [30])]
        [⟨"a", some "g", none⟩, ⟨"b", some "g", none⟩] "g"
      = Except.ok [("a", PFloat.finite 2), ("b", PFloat.finite (2/3))] := by
  have h := (csaw_scale_factor_formula [("a", [10]), ("b", [30])]
    [⟨"a", some "g", none⟩, ⟨"b", some "g", none⟩] "g" (by simp) (by decide)).1
  rw [h]
  have hr : resolve_group_samples [⟨"a", some "g", none⟩, ⟨"b", some "g", none⟩] "g"
      = ["a", "b"] := by decide
  rw [hr]
  have hla : libSize [("a", [10]), ("b", [30])] "a" = 10 := by decide
  have hlb : libSize [("a", [10]), ("b", [30])] "b" = 30 := by decide
  have hm : groupMean [("a", [10]), ("b", [30])] ["a", "b"] = 20 := by
    rw [groupMean]
    simp [hla, hlb]
    norm_num
  simp only [List.map_cons, List.map_nil, hla, hlb, hm]
  rw [pandasDiv, pandasDiv]
  norm_num

/-- Claim C5 counterexample: with library sizes a = 0 and b = 10 in group g
the script does not fail; it succeeds and writes `inf` (pandas `5 / 0`) for
sample a and 1/2 for sample b. -/
theorem csaw_zero_library_counterexample :
    calculate_csaw_scaling_factors [("a", [0]), ("b", [10])]
        [⟨"a", some "g", none⟩, ⟨"b", some "g", none⟩] "g"
      = Except.ok [("a", PFloat.pinf), ("b", PFloat.finite (1/2))] := by
  simp [calculate_csaw_scaling_factors, resolve_group_samples, groupMean, libSize, pandasDiv]
  norm_num

/-- Claim C5 amended: a zero library size is not guarded: whenever the group
resolves, its members are all among the count columns, and the group's mean
library size is positive, the script still succeeds, and the zero-library
sample is written with the non-finite factor `inf` (pandas `mean / 0`)
rather than rejected with a computation error. -/
theorem csaw_zero_library_emits_inf (counts : List (String × List ℕ))
    (design : List DesignRow) (group : String) (s : String)
    (hd : design ≠ [])
    (hall : ∀ t ∈ resolve_group_samples design group,
      (counts.any fun c => decide (c.1 = t)) = true)
    (hs : s ∈ resolve_group_samples design group)
    (hzero : libSize counts s = 0)
    (hmean : 0 < groupMean counts (resolve_group_samples design group)) :
    ∃ rows, calculate_csaw_scaling_factors counts design group = Except.ok rows
      ∧ (s, PFloat.pinf) ∈ rows := by
  refine ⟨_, csaw_ok_of_all_available counts design group
    (resolve_group_samples_ne_nil _ _ hd) hall, ?_⟩
  refine List.mem_map.mpr ⟨s, hs, ?_⟩
  rw [hzero]
  rw [pandasDiv, if_pos (by norm_num), if_neg (ne_of_gt hmean)]

/-- Witness for C5 amended: the concrete run of the counterexample input,
obtained through the general statement. -/
theorem csaw_zero_library_emits_inf_witness :
    ∃ rows, calculate_csaw_scaling_factors [("a", [0]), ("b", [10])]
        [⟨"a", some "g", none⟩, ⟨"b", some "g", none⟩] "g" = Except.ok rows
      ∧ ("a", PFloat.pinf) ∈ rows := by
  refine csaw_zero_library_emits_inf [("a", [0]), ("b", [10])]
    [⟨"a", some "g", none⟩, ⟨"b", some "g", none⟩] "g" "a"
    (by simp) (by decide) (by decide) (by decide) ?_
  have hr : resolve_group_samples [⟨"a", some "g", none⟩, ⟨"b", some "g", none⟩] "g"
      = ["a", "b"] := by decide
  rw [hr, groupMean]
  have h0 : libSize [("a", [0]), ("b", [10])] "a" = 0 := by decide
  have h10 : libSize [("a", [0]), ("b", [10])] "b" = 10 := by decide
  rw [List.map_cons, List.map_cons, List.map_nil, h0, h10]
  norm_num

/-- Claim C8: when no sample of the resolved group appears among the count
columns the script fails with the descriptive no-samples error; when at least
one matches, only the matching samples are used (one output row each). -/
theorem csaw_unmatched_group (counts : List (String × List ℕ))
    (design : List DesignRow) (group : String) :
    (((resolve_group_samples design group).filter fun s =>
        counts.any fun c => decide (c.1 = s)) = [] →
      calculate_csaw_scaling_factors counts design group
        = Except.error ("No samples from group " ++ group ++ " found in featureCounts output."))
    ∧ (((resolve_group_samples design group).filter fun s =>
        counts.any fun c => decide (c.1 = s)) ≠ [] →
      calculate_csaw_scaling_factors counts design group
        = Except.ok (((resolve_group_samples design group).filter fun s =>
            counts.any fun c => decide (c.1 = s)).map fun s =>
          (s, pandasDiv (groupMean counts ((resolve_group_samples design group).filter fun s =>
            counts.any fun c => decide (c.1 = s))) ((libSize counts s : ℕ) : ℚ)))) := by
  simp only [calculate_csaw_scaling_factors]
  constructor
  · intro h
    rw [if_pos (by simpa [List.isEmpty_iff] using h)]
  · intro h
    rw [if_neg (by simpa [List.isEmpty_iff] using h)]

/-- Witness for C8: group g resolves to sample a, which is not among the
count columns, so the run fails with the descriptive error. -/
theorem csaw_unmatched_group_witness :
    calculate_csaw_scaling_factors [("x", [1])] [⟨"a", some "g", none⟩] "g"
      = Except.error ("No samples from group " ++ "g" ++ " found in featureCounts output.") :=
  (csaw_unmatched_group [("x", [1])] [⟨"a", some "g", none⟩] "g").1 (by decide)

/-- Claim C3: under the with_input method, when the pooled IP spike-in and
control reference sums over the group rows of the normalisation table are
positive, the merged factor is
(Σ spikein_reads_control) × 1e7 / ((Σ spikein_reads_ip) × (Σ reference_reads_control)),
each sum ranging only over the table rows whose sample is a group member. -/
theorem merged_with_input_pooled (norm_factors : List (String × ℚ))
    (spikein_stats : String → ℕ) (norm_table : List NormRow) (samples : List String)
    (hip : 0 < (((norm_table.filter fun r => samples.any fun s => decide (s = r.sample)).map
      NormRow.spikein_reads_ip).sum : ℕ))
    (hrc : 0 < (((norm_table.filter fun r => samples.any fun s => decide (s = r.sample)).map
      NormRow.reference_reads_control).sum : ℕ)) :
    get_norm_factor_spikein_for_merged_group "with_input" norm_factors spikein_stats
        norm_table samples false
      = ((((norm_table.filter fun r => samples.any fun s => decide (s = r.sample)).map
            NormRow.spikein_reads_control).sum : ℚ) * 10000000)
        / ((((norm_table.filter fun r => samples.any fun s => decide (s = r.sample)).map
            NormRow.spikein_reads_ip).sum : ℚ)
          * (((norm_table.filter fun r => samples.any fun s => decide (s = r.sample)).map
            NormRow.reference_reads_control).sum : ℚ)) := by
  simp only [get_norm_factor_spikein_for_merged_group]
  simp [hip, hrc]

/-- Witness for C3: samples (S_ctrl, S_ip, R_ctrl) = (1000, 2000, 500000)
and (1500, 2500, 600000) pool to (2500 × 1e7) / (4500 × 1100000). -/
theorem merged_with_input_pooled_witness :
    get_norm_factor_spikein_for_merged_group "with_input" [] (fun _ => 0)
        [⟨"a", 1000, 2000, 500000⟩, ⟨"b", 1500, 2500, 600000⟩] ["a", "b"] false
      = ((2500 : ℚ) * 10000000) / ((4500 : ℚ) * 1100000) := by
  have h := merged_with_input_pooled [] (fun _ => 0)
    [⟨"a", 1000, 2000, 500000⟩, ⟨"b", 1500, 2500, 600000⟩] ["a", "b"]
    (by decide) (by decide)
  rw [h]
  have e1 : ((([⟨"a", 1000, 2000, 500000⟩, ⟨"b", 1500, 2500, 600000⟩] :
      List NormRow).filter fun r => (["a", "b"].any fun s => decide (s = r.sample))).map
      NormRow.spikein_reads_control).sum = 2500 := by decide
  have e2 : ((([⟨"a", 1000, 2000, 500000⟩, ⟨"b", 1500, 2500, 600000⟩] :
      List NormRow).filter fun r => (["a", "b"].any fun s => decide (s = r.sample))).map
      NormRow.spikein_reads_ip).sum = 4500 := by decide
  have e3 : ((([⟨"a", 1000, 2000, 500000⟩, ⟨"b", 1500, 2500, 600000⟩] :
      List NormRow).filter fun r => (["a", "b"].any fun s => decide (s = r.sample))).map
      NormRow.reference_reads_control).sum = 1100000 := by decide
  rw [e1, e2, e3]
  norm_num

/-- Claim C4: under the orlando method with positive pooled spike-in total,
the merged factor is 1e6 divided by the sum of the member samples'
`spikein_reads` stats, and it equals the factor computed for one single
sample whose `spikein_reads` is that sum. -/
theorem merged_orlando_pooled (norm_factors nf2 : List (String × ℚ))
    (spikein_stats stats2 : String → ℕ) (norm_table nt2 : List NormRow)
    (samples : List String) (m : String)
    (htot : 0 < (samples.map spikein_stats).sum)
    (hm : stats2 m = (samples.map spikein_stats).sum) :
    get_norm_factor_spikein_for_merged_group "orlando" norm_factors spikein_stats norm_table
        samples false = 1000000 / (((samples.map spikein_stats).sum : ℕ) : ℚ)
    ∧ get_norm_factor_spikein_for_merged_group "orlando" nf2 stats2 nt2 [m] false
        = 1000000 / (((samples.map spikein_stats).sum : ℕ) : ℚ) := by
  constructor
  · simp only [get_norm_factor_spikein_for_merged_group]
    simp [htot]
  · simp only [get_norm_factor_spikein_for_merged_group, List.map_cons, List.map_nil,
      List.sum_cons, List.sum_nil, add_zero, hm]
    simp [htot]

/-- Witness for C4: per-sample spike-in counts [100000, 200000, 300000] pool
to 600000; the merged factor and the single-sample factor for a sample with
`spikein_reads` 600000 are both 1e6 / 600000 = 5/3. -/
theorem merged_orlando_pooled_witness :
    get_norm_factor_spikein_for_merged_group "orlando" [] (fun s =>
        if s = "a" then 100000 else if s = "b" then 200000 else 300000) []
        ["a", "b", "c"] false = 5 / 3
    ∧ get_norm_factor_spikein_for_merged_group "orlando" [] (fun _ => 600000) []
        ["m"] false = 5 / 3 := by
  have h := merged_orlando_pooled [] [] (fun s =>
      if s = "a" then 100000 else if s = "b" then 200000 else 300000) (fun _ => 600000)
    [] [] ["a", "b", "c"] "m" (by decide) (by decide)
  have hsum : ((["a", "b", "c"].map fun s =>
      if s = "a" then 100000 else if s = "b" then 200000 else 300000).sum : ℕ) = 600000 := by
    decide
  rw [hsum] at h
  refine ⟨?_, ?_⟩
  · rw [h.1]
    norm_num
  · rw [h.2]
    norm_num

